import Mathlib

/-!
Verification of the subscription outcome classifier
(`web/packages/new/photos/components/PlanSelector.tsx`) and the mailing-list
synchronization controller (Go, `MailingListsController`) of the ente
repository, via a shallow embedding in Lean.
-/

namespace Ente

/-! ## Subscription plan-selection classifier

Embedding of `planSelectionOutcome` from `PlanSelector.tsx`. The TypeScript
function receives `subscription: Subscription | undefined` and compares
`subscription.expiryTime` against `Date.now() * 1000` (microsecond epoch).
We pass the single sampled clock value `now` (already scaled to microseconds)
as an explicit parameter; times are integers. -/

/-- The fields of `Subscription` that `planSelectionOutcome` reads. -/
structure Subscription where
  productID : String
  expiryTime : Int
  paymentProvider : String
deriving DecidableEq, Repr

/-- The four string outcomes `planSelectionOutcome` can return. -/
inductive PlanOutcome where
  | buyPlan
  | updateSubscriptionToPlan
  | cancelOnMobile
  | contactSupport
deriving DecidableEq, Repr

/-- Shallow embedding of `planSelectionOutcome` (PlanSelector.tsx lines
259-288). `now` is the value of `Date.now() * 1000` sampled once. -/
def planSelectionOutcome (now : Int) (subscription : Option Subscription) :
    PlanOutcome :=
  match subscription with
  | none => .buyPlan
  | some s =>
    if s.productID = "free" then .buyPlan
    else if s.expiryTime < now then .buyPlan
    else if s.paymentProvider = "stripe" then .updateSubscriptionToPlan
    else if s.paymentProvider = "appstore" ∨ s.paymentProvider = "playstore"
      then .cancelOnMobile
    else .contactSupport

end Ente

namespace Ente

/-- C1: a subscription whose `expiryTime` is strictly earlier than the current
time classifies as `buyPlan`, whatever the `paymentProvider` (in particular for
`"stripe"`): the expiry test precedes the provider dispatch, and the only
earlier test (`productID = "free"`) also returns `buyPlan`. -/
theorem expired_subscription_buyPlan (now : Int) (s : Subscription)
    (h : s.expiryTime < now) :
    planSelectionOutcome now (some s) = .buyPlan := by
  unfold planSelectionOutcome
  by_cases hfree : s.productID = "free" <;> simp [hfree, h]

/-- Closed instance of `expired_subscription_buyPlan`: a stripe subscription
expired one microsecond before `now`. -/
theorem expired_subscription_buyPlan_witness :
    planSelectionOutcome 100 (some ⟨"paid", 99, "stripe"⟩) = .buyPlan :=
  expired_subscription_buyPlan 100 ⟨"paid", 99, "stripe"⟩ (by decide)

/-- C6: for a non-free, non-expired subscription the outcome is decided by the
payment provider: `"stripe"` gives `updateSubscriptionToPlan`, `"appstore"` or
`"playstore"` gives `cancelOnMobile`, anything else gives `contactSupport`. -/
theorem active_paid_provider_dispatch (now : Int) (s : Subscription)
    (hfree : s.productID ≠ "free") (hexp : now ≤ s.expiryTime) :
    (s.paymentProvider = "stripe" →
      planSelectionOutcome now (some s) = .updateSubscriptionToPlan) ∧
    (s.paymentProvider = "appstore" ∨ s.paymentProvider = "playstore" →
      planSelectionOutcome now (some s) = .cancelOnMobile) ∧
    (s.paymentProvider ≠ "stripe" → s.paymentProvider ≠ "appstore" →
      s.paymentProvider ≠ "playstore" →
      planSelectionOutcome now (some s) = .contactSupport) := by
  have hlt : ¬ s.expiryTime < now := not_lt.mpr hexp
  refine ⟨fun hp => ?_, fun hp => ?_, fun h1 h2 h3 => ?_⟩
  · unfold planSelectionOutcome
    simp [hfree, hlt, hp]
  · unfold planSelectionOutcome
    rcases hp with hp | hp <;> simp [hfree, hlt, hp]
  · unfold planSelectionOutcome
    simp [hfree, hlt, h1, h2, h3]

/-- Closed instance of `active_paid_provider_dispatch`, exercising all three
provider branches at concrete inputs. -/
theorem active_paid_provider_dispatch_witness :
    planSelectionOutcome 0 (some ⟨"paid", 5, "stripe"⟩)
        = .updateSubscriptionToPlan ∧
    planSelectionOutcome 0 (some ⟨"paid", 5, "appstore"⟩) = .cancelOnMobile ∧
    planSelectionOutcome 0 (some ⟨"paid", 5, "playstore"⟩) = .cancelOnMobile ∧
    planSelectionOutcome 0 (some ⟨"paid", 5, "paypal"⟩) = .contactSupport :=
  ⟨(active_paid_provider_dispatch 0 ⟨"paid", 5, "stripe"⟩ (by decide)
      (by decide)).1 rfl,
   (active_paid_provider_dispatch 0 ⟨"paid", 5, "appstore"⟩ (by decide)
      (by decide)).2.1 (Or.inl rfl),
   (active_paid_provider_dispatch 0 ⟨"paid", 5, "playstore"⟩ (by decide)
      (by decide)).2.1 (Or.inr rfl),
   (active_paid_provider_dispatch 0 ⟨"paid", 5, "paypal"⟩ (by decide)
      (by decide)).2.2 (by decide) (by decide) (by decide)⟩

/-- C7: with no subscription (`undefined` input) the classifier returns
`buyPlan`. -/
theorem no_subscription_buyPlan (now : Int) :
    planSelectionOutcome now none = .buyPlan := rfl

/-- C8: a subscription whose `productID` is the sentinel `"free"` classifies as
`buyPlan` regardless of `expiryTime` and `paymentProvider`. -/
theorem free_subscription_buyPlan (now : Int) (s : Subscription)
    (h : s.productID = "free") :
    planSelectionOutcome now (some s) = .buyPlan := by
  unfold planSelectionOutcome
  simp [h]

/-- Closed instance of `free_subscription_buyPlan`: a free-plan subscription
with an unexpired stripe-looking record still classifies as `buyPlan`. -/
theorem free_subscription_buyPlan_witness :
    planSelectionOutcome 0 (some ⟨"free", 5, "stripe"⟩) = .buyPlan :=
  free_subscription_buyPlan 0 ⟨"free", 5, "stripe"⟩ rfl

/-- C9: the expiry comparison is strict: a subscription whose `expiryTime`
equals `now` is not treated as expired, so a non-free stripe subscription with
`expiryTime = now` yields `updateSubscriptionToPlan`, not `buyPlan`. -/
theorem expiry_equal_now_not_expired (now : Int) (s : Subscription)
    (heq : s.expiryTime = now) (hfree : s.productID ≠ "free")
    (hp : s.paymentProvider = "stripe") :
    planSelectionOutcome now (some s) = .updateSubscriptionToPlan := by
  unfold planSelectionOutcome
  simp [hfree, heq, hp]

/-- Closed instance of `expiry_equal_now_not_expired` at `now = 100`. -/
theorem expiry_equal_now_not_expired_witness :
    planSelectionOutcome 100 (some ⟨"paid", 100, "stripe"⟩)
      = .updateSubscriptionToPlan :=
  expiry_equal_now_not_expired 100 ⟨"paid", 100, "stripe"⟩ rfl (by decide) rfl

end Ente

namespace Ente.GoUrl

/-! ## Go `net/url` escaping

Byte-level embedding of `url.QueryEscape`, `url.PathEscape` and
`url.QueryUnescape` from the Go standard library, which the mailing-list
controller uses. Go escapes the UTF-8 bytes of the string; we model bytes as
`Nat` codes below 256. -/

/-- UTF-8 byte sequence of a single code point, as Go sees strings. -/
def utf8Bytes (c : Nat) : List Nat :=
  if c < 0x80 then [c]
  else if c < 0x800 then [0xC0 + c / 64, 0x80 + c % 64]
  else if c < 0x10000 then
    [0xE0 + c / 4096, 0x80 + (c / 64) % 64, 0x80 + c % 64]
  else
    [0xF0 + c / 262144, 0x80 + (c / 4096) % 64, 0x80 + (c / 64) % 64,
     0x80 + c % 64]

/-- The UTF-8 bytes of a string. -/
def strBytes (s : String) : List Nat :=
  s.data.flatMap fun c => utf8Bytes c.toNat

/-- Decode a list of bytes back to a string. The escaping results and the
decoded vendor-side literals in this development are pure ASCII, where this is
the exact inverse of `strBytes`. -/
def bytesToStr (l : List Nat) : String :=
  String.mk (l.map Char.ofNat)

/-- Uppercase hexadecimal digit, as Go's `"0123456789ABCDEF"` table. -/
def upperHexDigit (n : Nat) : Char :=
  if n < 10 then Char.ofNat (48 + n) else Char.ofNat (55 + n)

/-- The two escaping modes the controller uses, mirroring Go's
`encodeQueryComponent` and `encodePathSegment`. -/
inductive Mode where
  | queryComponent
  | pathSegment
deriving DecidableEq, Repr

/-- Go's `shouldEscape(c, mode)` restricted to the two modes used here:
alphanumerics and `-_.~` are never escaped; of the reserved set
`$&+,/:;=?@`, query components escape all of them while path segments escape
only `/;,?`; every other byte is escaped. -/
def shouldEscapeByte (c : Nat) (mode : Mode) : Bool :=
  if (48 ≤ c ∧ c ≤ 57) ∨ (65 ≤ c ∧ c ≤ 90) ∨ (97 ≤ c ∧ c ≤ 122) then false
  else if c = 45 ∨ c = 95 ∨ c = 46 ∨ c = 126 then false
  else if c = 36 ∨ c = 38 ∨ c = 43 ∨ c = 44 ∨ c = 47 ∨ c = 58 ∨ c = 59 ∨
      c = 61 ∨ c = 63 ∨ c = 64 then
    match mode with
    | .queryComponent => true
    | .pathSegment => c = 47 ∨ c = 59 ∨ c = 44 ∨ c = 63
  else true

/-- Escape one byte: a space becomes `+` in query components, otherwise an
escaped byte becomes `%XX` with uppercase hex. -/
def escapeByte (c : Nat) (mode : Mode) : List Char :=
  if shouldEscapeByte c mode then
    if c = 32 ∧ mode = .queryComponent then ['+']
    else ['%', upperHexDigit (c / 16), upperHexDigit (c % 16)]
  else [Char.ofNat c]

/-- Go's `url.escape`, on the UTF-8 bytes of `s`. -/
def escape (s : String) (mode : Mode) : String :=
  String.mk ((strBytes s).flatMap fun c => escapeByte c mode)

/-- Go's `url.QueryEscape`. -/
def QueryEscape (s : String) : String := escape s .queryComponent

/-- Go's `url.PathEscape`. -/
def PathEscape (s : String) : String := escape s .pathSegment

/-- Value of a hexadecimal digit byte, if it is one. -/
def hexVal (c : Nat) : Option Nat :=
  if 48 ≤ c ∧ c ≤ 57 then some (c - 48)
  else if 65 ≤ c ∧ c ≤ 70 then some (c - 55)
  else if 97 ≤ c ∧ c ≤ 102 then some (c - 87)
  else none

/-- Go's `url.unescape` in query-component mode, on bytes: `%XX` decodes to a
byte, `+` decodes to a space, everything else is copied; a malformed percent
escape is an error (`none`). -/
def unescapeBytes : List Nat → Option (List Nat)
  | [] => some []
  | 37 :: a :: b :: rest => do
      let ha ← hexVal a
      let hb ← hexVal b
      let r ← unescapeBytes rest
      pure ((ha * 16 + hb) :: r)
  | 37 :: _ => none
  | 43 :: rest => (unescapeBytes rest).map (fun r => 32 :: r)
  | c :: rest => (unescapeBytes rest).map (fun r => c :: r)

/-- Go's `url.QueryUnescape` — the decoding the vendor applies to a query
parameter value (x-www-form-urlencoded). -/
def QueryUnescape (s : String) : Option String :=
  (unescapeBytes (strBytes s)).map bytesToStr

end Ente.GoUrl


namespace Ente.Controller

open Ente.GoUrl

/-! ## MailingListsController

Embedding of the Go `MailingListsController`. The external collaborator
`zoho.DoRequest` (token exchange plus HTTP POST) is abstracted as a function
from the request it is given to the pair Go returns: the access token and an
optional error (modelled by its message string, which is all the controller
inspects). Observable effects — log lines and issued HTTP requests — are
returned explicitly. -/

/-- `zoho.Credentials`. -/
structure Credentials where
  ClientID : String
  ClientSecret : String
  RefreshToken : String
deriving DecidableEq, Repr

/-- The controller state: cached access token plus configuration. -/
structure MailingListsController where
  zohoAccessToken : String
  zohoListKey : String
  zohoTopicIds : String
  zohoCredentials : Credentials
deriving DecidableEq, Repr

/-- Abstraction of `zoho.DoRequest`: given method, URL, cached access token
and credentials, returns the access token to cache and an optional error
message. -/
def ZohoClient : Type :=
  String → String → String → Credentials → String × Option String

/-- Log severities the controller uses (`log.Info`, `log.Warnf`,
`log.Errorf`). -/
inductive Severity where
  | info
  | warn
  | error
deriving DecidableEq, Repr

/-- Errors the controller returns: `ente.ErrNotImplemented` in disabled mode,
or the propagated `zoho.DoRequest` error (keyed by its message). -/
inductive MLError where
  | notImplemented
  | zohoErr (msg : String)
deriving DecidableEq, Repr

/-- `sub` occurs as a contiguous sublist of the second argument
(Go `strings.Contains` on the character level). -/
def listContains (sub : List Char) : List Char → Bool
  | [] => List.isEmpty sub
  | c :: rest => List.isPrefixOf sub (c :: rest) || listContains sub rest

/-- Go `strings.Contains s sub`. -/
def strContains (s sub : String) : Bool :=
  listContains sub.data s.data

/-- The JSON-shaped literal `doListAction` builds around the query-escaped
email: `fmt.Sprintf("\x7bContact+Email: \"%s\"\x7d", escapedEmail)`. -/
def contactInfoLiteral (email : String) : String :=
  "\x7bContact+Email: \"" ++ QueryEscape email ++ "\"\x7d"

/-- The doubly-escaped contactinfo parameter: the literal around the
query-escaped email, path-escaped as a whole. -/
def escapedContactInfo (email : String) : String :=
  PathEscape (contactInfoLiteral email)

/-- The URL `doListAction` builds for the given action and email. -/
def listActionURL (c : MailingListsController) (action email : String) :
    String :=
  "https://campaigns.zoho.com/api/v1.1/json/" ++ action ++
    "?resfmt=JSON&listkey=" ++ c.zohoListKey ++ "&contactinfo=" ++
    escapedContactInfo email ++ "&topic_id=" ++ c.zohoTopicIds

/-- The message of the `log.Warnf`/`log.Errorf` line in `doListAction`:
`"Zoho - Could not %s \x27%s\x27: %s"` applied to action, email and the
error. -/
def logMessage (action email msg : String) : String :=
  "Zoho - Could not " ++ action ++ " \x27" ++ email ++ "\x27: " ++ msg

/-- Everything observable about one controller call: the post-state, the
returned result (`none` = nil error), the log lines emitted, and the HTTP
requests issued (method-URL pairs). -/
structure ActionResult where
  controller : MailingListsController
  result : Option MLError
  logs : List (Severity × String)
  requests : List (String × String)
deriving DecidableEq, Repr

/-- Embedding of `doListAction`: build the doubly-escaped contactinfo URL,
POST it through the client, cache the returned access token unconditionally,
classify a failure for logging by the "Contact does not exist" substring, and
propagate the original error. -/
def doListAction (client : ZohoClient) (c : MailingListsController)
    (action email : String) : ActionResult :=
  let url := listActionURL c action email
  let resp := client "POST" url c.zohoAccessToken c.zohoCredentials
  let logs :=
    match resp.2 with
    | none => []
    | some msg =>
      if strContains msg "Contact does not exist" then
        [(Severity.warn, logMessage action email msg)]
      else
        [(Severity.error, logMessage action email msg)]
  { controller := { c with zohoAccessToken := resp.1 },
    result := Option.map MLError.zohoErr resp.2,
    logs := logs,
    requests := [("POST", url)] }

/-- Embedding of `shouldSkip`: true when the configured refresh token is
empty. (In Go the accompanying `log.Info` happens inside `shouldSkip`; here
the skip log line is emitted by the callers, observably the same.) -/
def shouldSkip (c : MailingListsController) : Bool :=
  c.zohoCredentials.RefreshToken == ""

/-- The `log.Info` line of `shouldSkip`. -/
def skipLog : List (Severity × String) :=
  [(Severity.info,
    "Skipping mailing list update because credentials are not configured")]

/-- Embedding of `Subscribe`. -/
def Subscribe (client : ZohoClient) (c : MailingListsController)
    (email : String) : ActionResult :=
  if shouldSkip c then
    { controller := c, result := some MLError.notImplemented,
      logs := skipLog, requests := [] }
  else
    doListAction client c "listsubscribe" email

/-- Embedding of `Unsubscribe`. -/
def Unsubscribe (client : ZohoClient) (c : MailingListsController)
    (email : String) : ActionResult :=
  if shouldSkip c then
    { controller := c, result := some MLError.notImplemented,
      logs := skipLog, requests := [] }
  else
    doListAction client c "listunsubscribe" email

/-- A client that always succeeds, returning a fresh access token. -/
def okClient : ZohoClient :=
  fun _ _ _ _ => ("fresh-token", none)

/-- A client that fails with the vendor message for an absent contact. -/
def missingContactClient : ZohoClient :=
  fun _ _ _ _ => ("fresh-token", some "Contact does not exist.")

/-- A client that fails with an unrelated error message. -/
def failingClient : ZohoClient :=
  fun _ _ _ _ => ("fresh-token", some "network timeout")

/-- A concrete controller configuration with the given refresh token. -/
def testController (refreshToken : String) : MailingListsController :=
  { zohoAccessToken := "cached-token", zohoListKey := "list-key",
    zohoTopicIds := "topic-ids",
    zohoCredentials :=
      { ClientID := "client-id", ClientSecret := "client-secret",
        RefreshToken := refreshToken } }

end Ente.Controller

namespace Ente.Controller

open Ente.GoUrl

/-- C2 counterexample: the escaped email is correct
(`QueryEscape "a+b@example.com" = "a%2Bb%40example.com"`), but the literal it
is embedded in is `\x7bContact+Email: "..."\x7d` — with a plus between the
words — not the `\x7bContact Email: "..."\x7d` (with a space) that the claim
states. -/
theorem contactinfo_literal_counterexample :
    QueryEscape "a+b@example.com" = "a%2Bb%40example.com" ∧
    contactInfoLiteral "a+b@example.com"
      ≠ "\x7bContact Email: \"a%2Bb%40example.com\"\x7d" := by
  exact ⟨rfl, by decide⟩

/-- C2 as amended: the email is query-escaped (`+` becomes `%2B`), embedded in
the literal `\x7bContact+Email: "<escaped-email>"\x7d` (whose `+` stands for a
space after vendor-side query decoding), and the whole literal is path-escaped
— a scheme that leaves `+` alone where query-escaping would encode it. For
`"a+b@example.com"` the parameter query-decodes on the vendor side to
`\x7bContact Email: "a%2Bb%40example.com"\x7d`, and the email token decodes in
turn to `a+b@example.com`: the plus survives as a literal plus, not a
space. -/
theorem contactinfo_two_stage_escape :
    QueryEscape "a+b@example.com" = "a%2Bb%40example.com" ∧
    contactInfoLiteral "a+b@example.com"
      = "\x7bContact+Email: \"a%2Bb%40example.com\"\x7d" ∧
    QueryEscape "+" = "%2B" ∧
    PathEscape "+" = "+" ∧
    escapedContactInfo "a+b@example.com"
      = "%7BContact+Email:%20%22a%252Bb%2540example.com%22%7D" ∧
    QueryUnescape (escapedContactInfo "a+b@example.com")
      = some "\x7bContact Email: \"a%2Bb%40example.com\"\x7d" ∧
    QueryUnescape "a%2Bb%40example.com" = some "a+b@example.com" := by
  exact ⟨rfl, rfl, rfl, rfl, rfl, rfl, rfl⟩

/-- C3: with an empty refresh token both `Subscribe` and `Unsubscribe` return
the `ErrNotImplemented` error for every email and every possible client, and
issue no HTTP request at all. -/
theorem disabled_mode_skips (client : ZohoClient)
    (c : MailingListsController) (email : String)
    (h : c.zohoCredentials.RefreshToken = "") :
    (Subscribe client c email).result = some MLError.notImplemented ∧
    (Subscribe client c email).requests = [] ∧
    (Unsubscribe client c email).result = some MLError.notImplemented ∧
    (Unsubscribe client c email).requests = [] := by
  have hs : shouldSkip c = true := by simp [shouldSkip, h]
  simp [Subscribe, Unsubscribe, hs]

/-- Closed instance of `disabled_mode_skips`: a controller configured with an
empty refresh token, exercised with a client that would succeed. -/
theorem disabled_mode_skips_witness :
    (Subscribe okClient (testController "") "a@b.com").result
        = some MLError.notImplemented ∧
    (Subscribe okClient (testController "") "a@b.com").requests = [] ∧
    (Unsubscribe okClient (testController "") "a@b.com").result
        = some MLError.notImplemented ∧
    (Unsubscribe okClient (testController "") "a@b.com").requests = [] :=
  disabled_mode_skips okClient (testController "") "a@b.com" rfl

/-- C4: `doListAction` fails exactly when the underlying request fails; on
failure the original error message is propagated unchanged in both logging
branches, and the single log line is at warning severity precisely when the
message contains "Contact does not exist", at error severity otherwise. -/
theorem doListAction_error_classification (client : ZohoClient)
    (c : MailingListsController) (action email : String) :
    ((doListAction client c action email).result = none ↔
      (client "POST" (listActionURL c action email) c.zohoAccessToken
        c.zohoCredentials).2 = none) ∧
    (∀ msg,
      (client "POST" (listActionURL c action email) c.zohoAccessToken
        c.zohoCredentials).2 = some msg →
      (doListAction client c action email).result
          = some (MLError.zohoErr msg) ∧
      (doListAction client c action email).logs
          = [((if strContains msg "Contact does not exist" then Severity.warn
               else Severity.error), logMessage action email msg)]) := by
  constructor
  · unfold doListAction
    cases h : (client "POST" (listActionURL c action email) c.zohoAccessToken
        c.zohoCredentials).2 <;> simp [h]
  · intro msg hmsg
    unfold doListAction
    by_cases hc : strContains msg "Contact does not exist" <;>
      simp [hmsg, hc]

/-- Closed instance of `doListAction_error_classification`, at a client whose
error message is the vendor "Contact does not exist." response: the error is
propagated and the log line is at warning severity. -/
theorem doListAction_error_classification_witness :
    (doListAction missingContactClient (testController "rt") "listunsubscribe"
        "a@b.com").result
      = some (MLError.zohoErr "Contact does not exist.") ∧
    (doListAction missingContactClient (testController "rt") "listunsubscribe"
        "a@b.com").logs
      = [(Severity.warn,
          logMessage "listunsubscribe" "a@b.com" "Contact does not exist.")] := by
  have h := (doListAction_error_classification missingContactClient
    (testController "rt") "listunsubscribe" "a@b.com").2
    "Contact does not exist." rfl
  exact ⟨h.1, h.2.trans (by decide)⟩

/-- C5: after every `doListAction` call — success or failure alike, since the
client is arbitrary — the cached access token equals the token the client
returned for the one request that was issued. -/
theorem doListAction_updates_access_token (client : ZohoClient)
    (c : MailingListsController) (action email : String) :
    (doListAction client c action email).requests
        = [("POST", listActionURL c action email)] ∧
    (doListAction client c action email).controller.zohoAccessToken
        = (client "POST" (listActionURL c action email) c.zohoAccessToken
            c.zohoCredentials).1 :=
  ⟨rfl, rfl⟩

/-- C10: in disabled mode `Subscribe` and `Unsubscribe` leave the controller
state — in particular the cached access token — completely unchanged. -/
theorem disabled_mode_no_state_change (client : ZohoClient)
    (c : MailingListsController) (email : String)
    (h : c.zohoCredentials.RefreshToken = "") :
    (Subscribe client c email).controller = c ∧
    (Unsubscribe client c email).controller = c := by
  have hs : shouldSkip c = true := by simp [shouldSkip, h]
  simp [Subscribe, Unsubscribe, hs]

/-- Closed instance of `disabled_mode_no_state_change`: neither operation
changes the concrete disabled controller. -/
theorem disabled_mode_no_state_change_witness :
    (Subscribe okClient (testController "") "a@b.com").controller
        = testController "" ∧
    (Unsubscribe okClient (testController "") "a@b.com").controller
        = testController "" :=
  disabled_mode_no_state_change okClient (testController "") "a@b.com" rfl

end Ente.Controller
